import Mathlib

/-!
Shallow embedding of `src/eip_cleanup.py`, a single-file script that scans
cloud regions for unassociated (idle) Elastic IP addresses, filters them
against an allow-list (called "whitelist" in the code), and aggregates a
report.  External effects are modelled explicitly:

* the per-region inventory fetch (`client.describe_addresses()`) is a
  parameter `fetch : String → Except String (List AddressRecord)`; the
  `Except.error` case models the Python exception caught at line 75;
* reading the allow-list file is a parameter
  `readFile : String → FileResult`, whose `notFound` constructor models
  `FileNotFoundError` (the only exception caught by `load_whitelist`) and
  whose `err` constructor models every other read failure, which the code
  lets propagate;
* provider interactions are recorded in a trace of `ProviderCall`s so that
  the absence of any write/release call is a provable statement.

Python string truthiness and the `str.split` / `str.strip` operations are
embedded structurally (`pyTruthy`, `pySplit`, `pyStrip`) so that every
definition kernel-evaluates on concrete inputs.  Logging has no observable
effect on the returned data and is not modelled.
-/

namespace EipCleanup

/-- Splits a character list at every occurrence of the separator, keeping
empty segments: the embedding of Python `str.split(sep)` for a one-character
separator ( `"".split(sep) = [""]`, `",,".split(",") = ["","",""]` ). -/
def splitOnChar (c : Char) : List Char → List (List Char)
  | [] => [[]]
  | x :: xs =>
    if x = c then [] :: splitOnChar c xs
    else
      match splitOnChar c xs with
      | [] => [[x]]
      | y :: ys => (x :: y) :: ys

/-- Python `s.split(c)` for a one-character separator `c`. -/
def pySplit (c : Char) (s : String) : List String :=
  (splitOnChar c s.data).map String.mk

/-- The ASCII whitespace characters stripped by Python `str.strip()`. -/
def pySpace (c : Char) : Bool :=
  c = ' ' || c = '\t' || c = '\n' || c = '\r' || c = '\x0b' || c = '\x0c'

/-- Python `s.strip()`: removes leading and trailing whitespace. -/
def pyStrip (s : String) : String :=
  String.mk (((s.data.dropWhile pySpace).reverse.dropWhile pySpace).reverse)

/-- Python truthiness of an optional string: `None` and `""` are falsy,
every other string is truthy. -/
def pyTruthy : Option String → Bool
  | none => false
  | some s => !s.data.isEmpty

/-- One entry of the `Addresses` list returned by `describe_addresses`.
The code reads every field with `dict.get`, which yields `None` when the
key is absent, so each field is optional. -/
structure AddressRecord where
  publicIp : Option String
  allocationId : Option String
  associationId : Option String
  instanceId : Option String
  networkInterfaceId : Option String
deriving DecidableEq, Repr

/-- One element of the result list built by `find_unassociated_in_region`
(the dict `{"Region": region, "PublicIp": ..., "AllocationId": ...}`). -/
structure IdleCandidate where
  region : String
  publicIp : Option String
  allocationId : Option String
deriving DecidableEq, Repr

/-- Line 85 of the code:
`associated = bool(addr.get("AssociationId") or addr.get("InstanceId") or addr.get("NetworkInterfaceId"))`. -/
def associated (a : AddressRecord) : Bool :=
  pyTruthy a.associationId || pyTruthy a.instanceId || pyTruthy a.networkInterfaceId

/-- Line 90 of the code: `allocation_id and allocation_id in whitelist` —
the allocation id must be truthy (non-null and non-empty) AND a member of
the whitelist for the record to be skipped. -/
def inWhitelist (a : AddressRecord) (wl : Finset String) : Bool :=
  match a.allocationId with
  | none => false
  | some s => !s.data.isEmpty && decide (s ∈ wl)

/-- The result dict appended at lines 96-100. -/
def mkCandidate (region : String) (a : AddressRecord) : IdleCandidate :=
  { region := region, publicIp := a.publicIp, allocationId := a.allocationId }

/-- The `for addr in resp.get("Addresses", [])` loop of
`find_unassociated_in_region` (lines 80-102): skip whitelisted records,
append a candidate for every non-associated one, in input order. -/
def scanAddresses (region : String) (wl : Finset String) : List AddressRecord → List IdleCandidate
  | [] => []
  | a :: rest =>
    if inWhitelist a wl then scanAddresses region wl rest
    else if !associated a then mkCandidate region a :: scanAddresses region wl rest
    else scanAddresses region wl rest

/-- A call made to the cloud provider.  The script only ever issues
`describeAddresses`; `releaseAddress` exists in the model so that its
absence from every trace is a provable statement. -/
inductive ProviderCall where
  | describeAddresses (region : String)
  | releaseAddress (allocationId : String)
deriving DecidableEq, Repr

/-- The embedding of `find_unassociated_in_region(region, whitelist)`:
issues exactly one `describe_addresses` call; when the fetch raises, the
exception is caught (lines 75-78) and the empty list is returned, otherwise
the inventory is scanned.  The first component is the trace of provider
calls, the second the returned list. -/
def find_unassociated_in_region (fetch : String → Except String (List AddressRecord))
    (region : String) (wl : Finset String) : List ProviderCall × List IdleCandidate :=
  ([ProviderCall.describeAddresses region],
    match fetch region with
    | Except.error _ => []
    | Except.ok addrs => scanAddresses region wl addrs)

/-- The embedding of `get_regions(region_arg)` (lines 49-60): a falsy
argument (None or the empty string) yields the default `["us-east-1"]`;
otherwise the comma-separated segments are stripped and falsy (empty)
segments dropped, in order. -/
def get_regions : Option String → List String
  | none => ["us-east-1"]
  | some s =>
    if s.data.isEmpty then ["us-east-1"]
    else ((pySplit ',' s).map pyStrip).filter (fun r => !r.data.isEmpty)

/-- Outcome of opening and reading the allow-list file: success with the
file's full content, `FileNotFoundError`, or any other raised error. -/
inductive FileResult where
  | ok (content : String)
  | notFound
  | err (msg : String)

/-- The embedding of `load_whitelist(path)` (lines 105-126): a falsy path
yields the empty set; a missing file is caught (`FileNotFoundError` only)
and yields the empty set; any other read error propagates (`Except.error`).
On success every line is stripped and, when non-empty, added to the set.
The file's lines are its content split at newlines; Python's line iterator
keeps the terminator but `strip` removes it, so the two agree after
stripping. -/
def load_whitelist (readFile : String → FileResult) (path : Option String) :
    Except String (Finset String) :=
  match path with
  | none => Except.ok ∅
  | some p =>
    if p.data.isEmpty then Except.ok ∅
    else
      match readFile p with
      | FileResult.ok content =>
          Except.ok ((pySplit '\n' content).foldl
            (fun wl line =>
              let val := pyStrip line
              if val.data.isEmpty then wl else insert val wl) ∅)
      | FileResult.notFound => Except.ok ∅
      | FileResult.err e => Except.error e

/-- The parsed command-line arguments (`parse_arguments`, lines 30-46):
`--apply` is a boolean flag, `--regions` and `--whitelist` default to None. -/
structure Args where
  apply : Bool
  regions : Option String
  whitelist : Option String

/-- The region loop of `__main__` (lines 145-150): per region, extend the
trace and the accumulated report with that region's scan. -/
def run_scan (fetch : String → Except String (List AddressRecord)) (wl : Finset String)
    (regions : List String) : List ProviderCall × List IdleCandidate :=
  regions.foldl
    (fun acc r =>
      (acc.1 ++ (find_unassociated_in_region fetch r wl).1,
       acc.2 ++ (find_unassociated_in_region fetch r wl).2))
    ([], [])

/-- The embedding of the `__main__` block (lines 130-162): compute the
regions, load the whitelist (an uncaught load error aborts the run before
any provider call), then scan every region.  The `apply` flag is parsed but
never consulted.  The result is the trace of provider calls together with
the aggregated report `all_unassociated_eips`. -/
def main_run (args : Args) (readFile : String → FileResult)
    (fetch : String → Except String (List AddressRecord)) :
    Except String (List ProviderCall × List IdleCandidate) :=
  let regions := get_regions args.regions
  match load_whitelist readFile args.whitelist with
  | Except.error e => Except.error e
  | Except.ok wl => Except.ok (run_scan fetch wl regions)

/-! Helper lemmas shared by the claim theorems. -/

/-- The scan loop is a filter (drop whitelisted, drop associated) followed
by a projection to candidates, preserving input order. -/
lemma scanAddresses_eq (region : String) (wl : Finset String) (addrs : List AddressRecord) :
    scanAddresses region wl addrs
      = (addrs.filter (fun a => !inWhitelist a wl && !associated a)).map (mkCandidate region) := by
  induction addrs with
  | nil => rfl
  | cons a rest ih =>
    cases hw : inWhitelist a wl
    · cases ha : associated a
      · simp [scanAddresses, hw, ha, ih, List.filter_cons]
      · simp [scanAddresses, hw, ha, ih, List.filter_cons]
    · simp [scanAddresses, hw, ih, List.filter_cons]

/-- Evaluating the region fold from an arbitrary accumulator prepends the
accumulator to the fold from the empty one. -/
lemma run_scan_foldl_acc (fetch : String → Except String (List AddressRecord))
    (wl : Finset String) (regions : List String)
    (acc : List ProviderCall × List IdleCandidate) :
    List.foldl
        (fun acc r =>
          (acc.1 ++ (find_unassociated_in_region fetch r wl).1,
           acc.2 ++ (find_unassociated_in_region fetch r wl).2))
        acc regions
      = (acc.1 ++ (run_scan fetch wl regions).1, acc.2 ++ (run_scan fetch wl regions).2) := by
  induction regions generalizing acc with
  | nil => simp [run_scan]
  | cons r rs ih =>
    simp only [List.foldl_cons]
    rw [ih]
    conv_rhs => rw [run_scan]
    conv_rhs => rw [List.foldl_cons]
    conv_rhs => rw [ih]
    simp [List.append_assoc]

/-- Unfolding one region of the scan. -/
lemma run_scan_cons (fetch : String → Except String (List AddressRecord))
    (wl : Finset String) (r : String) (rs : List String) :
    run_scan fetch wl (r :: rs)
      = ((find_unassociated_in_region fetch r wl).1 ++ (run_scan fetch wl rs).1,
         (find_unassociated_in_region fetch r wl).2 ++ (run_scan fetch wl rs).2) := by
  show List.foldl _ ([], []) (r :: rs) = _
  rw [List.foldl_cons, run_scan_foldl_acc]
  simp

/-- The scan over a concatenation of region lists is the concatenation of
the two scans, componentwise. -/
lemma run_scan_append (fetch : String → Except String (List AddressRecord))
    (wl : Finset String) (l1 l2 : List String) :
    run_scan fetch wl (l1 ++ l2)
      = ((run_scan fetch wl l1).1 ++ (run_scan fetch wl l2).1,
         (run_scan fetch wl l1).2 ++ (run_scan fetch wl l2).2) := by
  show List.foldl _ ([], []) (l1 ++ l2) = _
  rw [List.foldl_append, run_scan_foldl_acc]
  rfl

/-- The provider-call trace of a scan is exactly one describe-addresses
call per region, in order. -/
lemma run_scan_trace (fetch : String → Except String (List AddressRecord))
    (wl : Finset String) (regions : List String) :
    (run_scan fetch wl regions).1 = regions.map ProviderCall.describeAddresses := by
  induction regions with
  | nil => rfl
  | cons r rs ih =>
    rw [run_scan_cons]
    simp [ih, find_unassociated_in_region]

/-- The whitelist fold collects exactly the non-empty stripped lines. -/
lemma whitelist_fold (lines : List String) (init : Finset String) :
    lines.foldl
        (fun wl line =>
          let val := pyStrip line
          if val.data.isEmpty then wl else insert val wl)
        init
      = init ∪ ((lines.map pyStrip).filter (fun l => !l.data.isEmpty)).toFinset := by
  induction lines generalizing init with
  | nil => simp
  | cons l ls ih =>
    simp only [List.foldl_cons, List.map_cons, List.filter_cons]
    cases h : (pyStrip l).data.isEmpty
    · simp only [h, Bool.not_false, if_true, Bool.false_eq_true, if_false]
      rw [ih]
      ext x
      simp [or_assoc, or_comm, or_left_comm]
    · simp only [h, Bool.not_true, Bool.false_eq_true, if_false, if_true]
      rw [ih]

/-- C1: every candidate the detector outputs originates from an inventory
record none of whose three association fields (association id, instance id,
network-interface id) is non-null and non-empty; hence a record with any
such field present is classified as associated and is never the source of
an output entry. -/
theorem associated_records_never_reported (region : String) (wl : Finset String)
    (addrs : List AddressRecord) (c : IdleCandidate)
    (hc : c ∈ scanAddresses region wl addrs) :
    ∃ a, a ∈ addrs ∧
      (pyTruthy a.associationId || pyTruthy a.instanceId
        || pyTruthy a.networkInterfaceId) = false ∧
      c = mkCandidate region a := by
  rw [scanAddresses_eq] at hc
  obtain ⟨a, ha, rfl⟩ := List.mem_map.1 hc
  obtain ⟨ha1, ha2⟩ := List.mem_filter.1 ha
  have h2 : associated a = false := by
    cases h : associated a
    · rfl
    · simp [h] at ha2
  exact ⟨a, ha1, by simpa [associated] using h2, rfl⟩

/-- Witness for C1 at a concrete scan: the single reported candidate comes
from a record whose three association fields are all null. -/
theorem associated_records_never_reported_witness :
    ∃ a, a ∈ [({ publicIp := some "1.2.3.4", allocationId := some "eip-1",
                  associationId := none, instanceId := none,
                  networkInterfaceId := none } : AddressRecord)] ∧
      (pyTruthy a.associationId || pyTruthy a.instanceId
        || pyTruthy a.networkInterfaceId) = false ∧
      ({ region := "us-east-1", publicIp := some "1.2.3.4",
         allocationId := some "eip-1" } : IdleCandidate) = mkCandidate "us-east-1" a :=
  associated_records_never_reported "us-east-1" ∅
    [{ publicIp := some "1.2.3.4", allocationId := some "eip-1",
       associationId := none, instanceId := none, networkInterfaceId := none }]
    { region := "us-east-1", publicIp := some "1.2.3.4", allocationId := some "eip-1" }
    (by decide)

/-- C2: the detector's output is exactly the non-whitelisted,
non-associated records of the inventory, projected to candidates, in input
order (so every such record is collected, with no early return); in
particular every record whose three association fields are all falsy and
whose allocation id is in no whitelist entry yields an output candidate. -/
theorem idle_records_all_reported (region : String) (wl : Finset String)
    (addrs : List AddressRecord) :
    scanAddresses region wl addrs
        = (addrs.filter (fun a => !inWhitelist a wl && !associated a)).map (mkCandidate region)
      ∧ ∀ a ∈ addrs, associated a = false →
          (∀ s, a.allocationId = some s → s ∉ wl) →
          mkCandidate region a ∈ scanAddresses region wl addrs := by
  refine ⟨scanAddresses_eq region wl addrs, fun a ha hassoc hwl => ?_⟩
  rw [scanAddresses_eq]
  refine List.mem_map.2 ⟨a, List.mem_filter.2 ⟨ha, ?_⟩, rfl⟩
  have hw : inWhitelist a wl = false := by
    cases h : a.allocationId with
    | none => simp [inWhitelist, h]
    | some s => simp [inWhitelist, h, hwl s h]
  simp [hw, hassoc]

/-- Witness for C2 at the scenario of the spec: both idle records of the
inventory are reported despite an associated record standing between them,
and the output preserves input order. -/
theorem idle_records_all_reported_witness :
    scanAddresses "us-east-1" ∅
        [({ publicIp := some "1.2.3.4", allocationId := some "eip-1",
            associationId := none, instanceId := none, networkInterfaceId := none }
          : AddressRecord),
         { publicIp := some "5.6.7.8", allocationId := some "eip-2",
           associationId := some "assoc-9", instanceId := none, networkInterfaceId := none },
         { publicIp := some "9.9.9.9", allocationId := some "eip-3",
           associationId := none, instanceId := none, networkInterfaceId := none }]
      = [{ region := "us-east-1", publicIp := some "1.2.3.4", allocationId := some "eip-1" },
         { region := "us-east-1", publicIp := some "9.9.9.9", allocationId := some "eip-3" }]
    ∧ mkCandidate "us-east-1"
        { publicIp := some "1.2.3.4", allocationId := some "eip-1",
          associationId := none, instanceId := none, networkInterfaceId := none }
      ∈ scanAddresses "us-east-1" ∅
          [({ publicIp := some "1.2.3.4", allocationId := some "eip-1",
              associationId := none, instanceId := none, networkInterfaceId := none }
            : AddressRecord),
           { publicIp := some "5.6.7.8", allocationId := some "eip-2",
             associationId := some "assoc-9", instanceId := none, networkInterfaceId := none },
           { publicIp := some "9.9.9.9", allocationId := some "eip-3",
             associationId := none, instanceId := none, networkInterfaceId := none }] := by
  refine ⟨by decide, ?_⟩
  exact (idle_records_all_reported "us-east-1" ∅ _).2 _ (by decide) (by decide)
    (fun s _ => Finset.not_mem_empty s)

/-- C3 as stated is false: a record whose allocation id is the empty
string is non-null, and with the empty string a member of the whitelist it
is still reported, because the code (line 90) additionally requires the
allocation id to be truthy, i.e. non-empty, before consulting the
whitelist. -/
theorem allowlisted_empty_id_reported_cex :
    ((some "" : Option String) ≠ none)
    ∧ "" ∈ ({""} : Finset String)
    ∧ scanAddresses "us-east-1" {""}
        [{ publicIp := some "1.2.3.4", allocationId := some "",
           associationId := none, instanceId := none, networkInterfaceId := none }]
      = [{ region := "us-east-1", publicIp := some "1.2.3.4",
           allocationId := some "" }] := by
  refine ⟨by decide, by decide, by decide⟩

/-- C3 amended: for every AddressRecord whose allocation identifier is
non-null, NON-EMPTY and a member of the allow-list, the detector excludes
it, regardless of association state — equivalently, no output candidate
carries a non-empty allocation id that belongs to the whitelist. -/
theorem reported_ids_not_allowlisted (region : String) (wl : Finset String)
    (addrs : List AddressRecord) (c : IdleCandidate)
    (hc : c ∈ scanAddresses region wl addrs)
    (s : String) (hs : c.allocationId = some s) (hne : s.data.isEmpty = false) :
    s ∉ wl := by
  rw [scanAddresses_eq] at hc
  obtain ⟨a, ha, rfl⟩ := List.mem_map.1 hc
  obtain ⟨_, ha2⟩ := List.mem_filter.1 ha
  have hsa : a.allocationId = some s := by simpa [mkCandidate] using hs
  intro hmem
  have hw : inWhitelist a wl = true := by
    simp [inWhitelist, hsa, hne, hmem]
  simp [hw] at ha2

/-- Witness for the amended C3 at a concrete scan: the reported candidate's
allocation id is not in the (non-trivial) whitelist. -/
theorem reported_ids_not_allowlisted_witness :
    "eip-1" ∉ ({"eip-9"} : Finset String) :=
  reported_ids_not_allowlisted "us-east-1" {"eip-9"}
    [{ publicIp := some "1.2.3.4", allocationId := some "eip-1",
       associationId := none, instanceId := none, networkInterfaceId := none }]
    { region := "us-east-1", publicIp := some "1.2.3.4", allocationId := some "eip-1" }
    (by decide) "eip-1" rfl (by decide)

/-- C4: when the inventory fetch for a region raises, the caught exception
yields the empty list for that region, and in the aggregated scan that
region contributes zero candidates while every region before and after it
contributes exactly what it would on its own. -/
theorem fetch_failure_isolated (fetch : String → Except String (List AddressRecord))
    (region : String) (wl : Finset String) (e : String)
    (h : fetch region = Except.error e) :
    (find_unassociated_in_region fetch region wl).2 = []
    ∧ ∀ pre post, (run_scan fetch wl (pre ++ region :: post)).2
        = (run_scan fetch wl pre).2 ++ (run_scan fetch wl post).2 := by
  have h1 : (find_unassociated_in_region fetch region wl).2 = [] := by
    simp [find_unassociated_in_region, h]
  refine ⟨h1, fun pre post => ?_⟩
  rw [run_scan_append]
  simp only []
  rw [run_scan_cons]
  simp [h1]

/-- Witness for C4 at a concrete failing fetch: the failing region returns
no candidates and the three-region scan splits around it. -/
theorem fetch_failure_isolated_witness :
    (find_unassociated_in_region (fun _ => Except.error "network error") "sa-east-1" ∅).2 = []
    ∧ (run_scan (fun _ => Except.error "network error") ∅
          (["us-east-1"] ++ "sa-east-1" :: ["us-west-2"])).2
        = (run_scan (fun _ => Except.error "network error") ∅ ["us-east-1"]).2
          ++ (run_scan (fun _ => Except.error "network error") ∅ ["us-west-2"]).2 := by
  have h := fetch_failure_isolated (fun _ => Except.error "network error")
    "sa-east-1" ∅ "network error" rfl
  exact ⟨h.1, h.2 ["us-east-1"] ["us-west-2"]⟩

/-- C5: the whitelist loader returns the empty set without raising when
the path is None, when it is the empty string, and when the file at the
path does not exist. -/
theorem load_whitelist_missing_or_no_path (readFile : String → FileResult)
    (p : String) (hp : readFile p = FileResult.notFound) :
    load_whitelist readFile none = Except.ok ∅
    ∧ load_whitelist readFile (some "") = Except.ok ∅
    ∧ load_whitelist readFile (some p) = Except.ok ∅ := by
  refine ⟨rfl, rfl, ?_⟩
  cases h : p.data.isEmpty
  · simp [load_whitelist, h, hp]
  · simp [load_whitelist, h]

/-- Witness for C5 with a file system on which every path is missing. -/
theorem load_whitelist_missing_or_no_path_witness :
    load_whitelist (fun _ => FileResult.notFound) none = Except.ok ∅
    ∧ load_whitelist (fun _ => FileResult.notFound) (some "") = Except.ok ∅
    ∧ load_whitelist (fun _ => FileResult.notFound) (some "missing.txt") = Except.ok ∅ :=
  load_whitelist_missing_or_no_path (fun _ => FileResult.notFound) "missing.txt" rfl

/-- C6: for an existing file, the loader returns the set of the file's
non-empty stripped lines — blank lines dropped and duplicates collapsed by
the set. -/
theorem load_whitelist_collects_trimmed_lines (readFile : String → FileResult)
    (p content : String) (hp : p.data.isEmpty = false)
    (h : readFile p = FileResult.ok content) :
    load_whitelist readFile (some p)
      = Except.ok (((pySplit '\n' content).map pyStrip).filter
          (fun l => !l.data.isEmpty)).toFinset := by
  simp only [load_whitelist, hp, Bool.false_eq_true, if_false, h]
  rw [whitelist_fold]
  simp

/-- Witness for C6 on the spec's example content: the loader returns
exactly the two-element set, blank lines ignored and the duplicate
collapsed. -/
theorem load_whitelist_collects_trimmed_lines_witness :
    load_whitelist (fun _ => FileResult.ok "a\n\nb\nb\n") (some "wl.txt")
      = Except.ok ({"a", "b"} : Finset String) :=
  (load_whitelist_collects_trimmed_lines (fun _ => FileResult.ok "a\n\nb\nb\n")
      "wl.txt" "a\n\nb\nb\n" (by decide) rfl).trans
    (congrArg Except.ok (by decide))

/-- C7: the run's provider interaction is exactly one read-only
describe-addresses call per scanned region — never a release call — and
the whole run result does not depend on the apply flag. -/
theorem apply_flag_never_acted_on (b1 b2 : Bool) (r w : Option String)
    (readFile : String → FileResult)
    (fetch : String → Except String (List AddressRecord)) :
    main_run ⟨b1, r, w⟩ readFile fetch = main_run ⟨b2, r, w⟩ readFile fetch
    ∧ ∀ trace report, main_run ⟨b1, r, w⟩ readFile fetch = Except.ok (trace, report) →
        trace = (get_regions r).map ProviderCall.describeAddresses
        ∧ ∀ id, ProviderCall.releaseAddress id ∉ trace := by
  refine ⟨rfl, fun trace report h => ?_⟩
  cases hw : load_whitelist readFile w with
  | error e => simp [main_run, hw] at h
  | ok wl =>
    have hm : main_run ⟨b1, r, w⟩ readFile fetch
        = Except.ok (run_scan fetch wl (get_regions r)) := by
      simp [main_run, hw]
    rw [hm] at h
    have h2 : run_scan fetch wl (get_regions r) = (trace, report) := Except.ok.inj h
    have ht : trace = (run_scan fetch wl (get_regions r)).1 := by rw [h2]
    rw [ht, run_scan_trace]
    refine ⟨rfl, fun id hmem => ?_⟩
    obtain ⟨x, _, hx⟩ := List.mem_map.1 hmem
    exact ProviderCall.noConfusion hx

/-- Witness for C7 at a concrete run over the default region: toggling the
apply flag changes nothing, and the trace is the single describe call. -/
theorem apply_flag_never_acted_on_witness :
    main_run ⟨true, none, none⟩ (fun _ => FileResult.notFound) (fun _ => Except.ok [])
      = main_run ⟨false, none, none⟩ (fun _ => FileResult.notFound) (fun _ => Except.ok [])
    ∧ [ProviderCall.describeAddresses "us-east-1"]
        = (get_regions none).map ProviderCall.describeAddresses
    ∧ ∀ id, ProviderCall.releaseAddress id ∉ [ProviderCall.describeAddresses "us-east-1"] := by
  have h := apply_flag_never_acted_on true false none none
    (fun _ => FileResult.notFound) (fun _ => Except.ok [])
  exact ⟨h.1, h.2 [ProviderCall.describeAddresses "us-east-1"] [] rfl⟩

/-- C8: a read failure other than file-not-found is not swallowed by the
loader: it propagates to the caller as an error. -/
theorem load_whitelist_error_propagates (readFile : String → FileResult)
    (p e : String) (hp : p.data.isEmpty = false)
    (h : readFile p = FileResult.err e) :
    load_whitelist readFile (some p) = Except.error e := by
  simp [load_whitelist, hp, h]

/-- Witness for C8 with a file system raising a permission error. -/
theorem load_whitelist_error_propagates_witness :
    load_whitelist (fun _ => FileResult.err "PermissionError") (some "wl.txt")
      = Except.error "PermissionError" :=
  load_whitelist_error_propagates (fun _ => FileResult.err "PermissionError")
    "wl.txt" "PermissionError" (by decide) rfl

/-- C9: an absent regions argument yields exactly the default region, and
a non-empty comma-separated string yields its stripped segments with empty
segments removed, in order. -/
theorem get_regions_default_and_csv :
    get_regions none = ["us-east-1"]
    ∧ ∀ s : String, s.data.isEmpty = false →
        get_regions (some s)
          = ((pySplit ',' s).map pyStrip).filter (fun r => !r.data.isEmpty) := by
  exact ⟨rfl, fun s hs => by simp [get_regions, hs]⟩

/-- Witness for C9 on a concrete two-region argument with stray spaces and
a trailing empty segment. -/
theorem get_regions_default_and_csv_witness :
    get_regions (some "us-east-1, sa-east-1,")
      = ["us-east-1", "sa-east-1"] :=
  (get_regions_default_and_csv.2 "us-east-1, sa-east-1," (by decide)).trans (by decide)

/-- C10: for every non-empty regions argument whose comma-separated
segments all strip to the empty string, get_regions yields the empty
region list — the default is not substituted — so the run makes no
provider call and reports no candidate. -/
theorem get_regions_blank_segments_empty_scan (s : String)
    (hne : s.data.isEmpty = false)
    (hblank : ∀ seg ∈ pySplit ',' s, (pyStrip seg).data.isEmpty = true) :
    get_regions (some s) = []
    ∧ ∀ (readFile : String → FileResult)
        (fetch : String → Except String (List AddressRecord)),
        main_run ⟨false, some s, none⟩ readFile fetch = Except.ok ([], []) := by
  have h1 : get_regions (some s) = [] := by
    simp only [get_regions, hne, Bool.false_eq_true, if_false]
    rw [List.filter_eq_nil_iff]
    intro a ha
    obtain ⟨seg, hseg, rfl⟩ := List.mem_map.1 ha
    simp [hblank seg hseg]
  refine ⟨h1, fun readFile fetch => ?_⟩
  simp [main_run, h1, load_whitelist, run_scan]

/-- Witness for C10 at the whitespace-only argument: the region list is
empty and a concrete full run returns an empty trace and report. -/
theorem get_regions_blank_segments_empty_scan_witness :
    get_regions (some " , ") = []
    ∧ main_run ⟨false, some " , ", none⟩ (fun _ => FileResult.notFound)
        (fun _ => Except.ok []) = Except.ok ([], []) := by
  have h := get_regions_blank_segments_empty_scan " , " (by decide) (by decide)
  exact ⟨h.1, h.2 (fun _ => FileResult.notFound) (fun _ => Except.ok [])⟩

end EipCleanup
